import Mathlib

/-!
Shallow embedding of the satellite-analysis subsystem of the `nuwa` backend
(`app/satellite/`), together with theorems settling the frozen claims about it.

Modelling conventions:
* Python floats are modelled as exact rationals (`ℚ`); float rounding error is
  out of scope.  Python `round(x, n)` is modelled as round-half-to-even on `ℚ`
  (`pyRound`), and `int(x)` as truncation toward zero (`truncInt`).
* Calls to `random.uniform(a, b)` / `random.randint` / `random.choice` are
  modelled as extra function parameters, constrained by the interval the source
  draws from where a claim needs it.
* Transcendental library calls (`np.sin`, `np.log`) are modelled as extra
  function parameters as well: their float values are not exactly
  representable, and no claim below depends on their values.
* `async` functions suspend only at provider boundaries; their data flow is
  sequentialised.  `asyncio.gather(..., return_exceptions=True)` is modelled by
  passing each sub-query outcome as an `Except` value.
* Python dicts that are only built and projected are modelled as structures;
  a key that may be absent (so that `.get` returns `None`) is an `Option`.
-/

/-! ## Python numeric primitives -/

/-- Python `round` to an integer: round half to even, as CPython does,
modelled on exact rationals. -/
def pyRoundInt (x : ℚ) : ℤ :=
  if x - ⌊x⌋ = 1 / 2 then (if ⌊x⌋ % 2 = 0 then ⌊x⌋ else ⌊x⌋ + 1) else ⌊x + 1 / 2⌋

/-- Python `round(x, n)` for `n ≥ 0`, modelled on exact rationals. -/
def pyRound (n : ℕ) (x : ℚ) : ℚ :=
  (pyRoundInt (x * 10 ^ n) : ℚ) / 10 ^ n

/-- Python `int(x)`: truncation toward zero. -/
def truncInt (x : ℚ) : ℤ :=
  if 0 ≤ x then ⌊x⌋ else ⌈x⌉

theorem floor_le_pyRoundInt (x : ℚ) : ⌊x⌋ ≤ pyRoundInt x := by
  unfold pyRoundInt
  split
  · split
    · exact le_refl _
    · exact le_of_lt (lt_add_one _)
  · exact Int.floor_le_floor (by linarith)

theorem pyRoundInt_le_ceil (x : ℚ) : pyRoundInt x ≤ ⌈x⌉ := by
  unfold pyRoundInt
  split
  · rename_i htie
    have hlt : (⌊x⌋ : ℚ) < x := by
      have := Int.floor_le x
      nlinarith [htie]
    have hceil : ⌊x⌋ + 1 ≤ ⌈x⌉ := by
      have h1 : (⌊x⌋ : ℚ) < (⌈x⌉ : ℚ) := lt_of_lt_of_le hlt (Int.le_ceil x)
      exact_mod_cast Int.add_one_le_of_lt (by exact_mod_cast h1)
    split
    · exact le_trans (le_of_lt (lt_add_one _)) hceil
    · exact hceil
  · have h1 : x + 1 / 2 < ((⌈x⌉ + 1 : ℤ) : ℚ) := by
      have := Int.le_ceil x
      push_cast
      linarith
    have h2 : ⌊x + 1 / 2⌋ < ⌈x⌉ + 1 := Int.floor_lt.mpr h1
    omega

theorem pyRoundInt_mono {a b : ℚ} (hab : a ≤ b) : pyRoundInt a ≤ pyRoundInt b := by
  rcases eq_or_lt_of_le hab with heq | hlt
  · subst heq; exact le_refl _
  unfold pyRoundInt
  by_cases ha : a - ⌊a⌋ = 1 / 2 <;> by_cases hb : b - ⌊b⌋ = 1 / 2
  · -- both ties
    simp only [ha, hb, if_pos]
    have hfl : ⌊a⌋ ≤ ⌊b⌋ := Int.floor_le_floor hab
    rcases eq_or_lt_of_le hfl with hfe | hflt
    · exfalso
      have : a = b := by
        have h1 : a = (⌊a⌋ : ℚ) + 1 / 2 := by linarith
        have h2 : b = (⌊b⌋ : ℚ) + 1 / 2 := by linarith
        rw [h1, h2, hfe]
      exact absurd this (ne_of_lt hlt)
    have h1 : ⌊a⌋ + 1 ≤ ⌊b⌋ := Int.add_one_le_of_lt hflt
    split <;> split <;> omega
  · -- a tie, b not
    simp only [ha, hb, if_pos, if_neg, ite_false]
    have hfla : ⌊a + 1 / 2⌋ = ⌊a⌋ + 1 := by
      have : a + 1 / 2 = ((⌊a⌋ + 1 : ℤ) : ℚ) := by push_cast; linarith
      rw [this, Int.floor_intCast]
    have h2 : ⌊a + 1 / 2⌋ ≤ ⌊b + 1 / 2⌋ := Int.floor_le_floor (by linarith)
    split <;> omega
  · -- b tie, a not
    simp only [ha, hb, ite_false, if_pos]
    have hflab : ⌊a + 1 / 2⌋ ≤ ⌊b⌋ := by
      apply Int.le_of_lt_add_one
      apply Int.floor_lt.mpr
      have hbval : b = (⌊b⌋ : ℚ) + 1 / 2 := by linarith
      push_cast
      nlinarith [hlt, hbval]
    split <;> omega
  · -- neither tie
    simp only [ha, hb, ite_false]
    exact Int.floor_le_floor (by linarith)

theorem pyRound_mono (n : ℕ) {a b : ℚ} (hab : a ≤ b) : pyRound n a ≤ pyRound n b := by
  unfold pyRound
  have hpow : (0 : ℚ) < 10 ^ n := by positivity
  have h := pyRoundInt_mono (mul_le_mul_of_nonneg_right hab (le_of_lt hpow))
  exact (div_le_div_iff_of_pos_right hpow).mpr (by exact_mod_cast h)

/-- `pyRound` maps a value between two `n`-decimal endpoints back between them. -/
theorem pyRound_mem_of_mem {n : ℕ} {lo hi x : ℚ} (hlo : pyRound n lo = lo)
    (hhi : pyRound n hi = hi) (h1 : lo ≤ x) (h2 : x ≤ hi) :
    lo ≤ pyRound n x ∧ pyRound n x ≤ hi :=
  ⟨hlo ▸ pyRound_mono n h1, hhi ▸ pyRound_mono n h2⟩

theorem truncInt_mono_of_nonneg {a b : ℚ} (ha : 0 ≤ a) (hab : a ≤ b) :
    truncInt a ≤ truncInt b := by
  unfold truncInt
  rw [if_pos ha, if_pos (le_trans ha hab)]
  exact Int.floor_le_floor hab

/-! ## `app/satellite/clients/base_client.py` — shared helpers

`SatelliteDataClient.validate_bounds` and
`SatelliteDataClient.calculate_area_hectares` (lines 90-123). -/

/-- Geographic bounds tuple `(min_lon, min_lat, max_lon, max_lat)`. -/
structure Bounds where
  min_lon : ℚ
  min_lat : ℚ
  max_lon : ℚ
  max_lat : ℚ
deriving DecidableEq

/-- `SatelliteDataClient.validate_bounds`. -/
def validate_bounds (b : Bounds) : Bool :=
  if ¬(-180 ≤ b.min_lon ∧ b.min_lon ≤ 180 ∧ -180 ≤ b.max_lon ∧ b.max_lon ≤ 180) then false
  else if ¬(-90 ≤ b.min_lat ∧ b.min_lat ≤ 90 ∧ -90 ≤ b.max_lat ∧ b.max_lat ≤ 90) then false
  else if b.min_lon ≥ b.max_lon ∨ b.min_lat ≥ b.max_lat then false
  else true

/-- `SatelliteDataClient.calculate_area_hectares`, exactly as written in the
source: the longitude scale is `111320 * abs(lat_avg * 0.017453292519943295)`
(the inline comment claims this is `cos(lat in radians)`, but the code applies
`abs`, not `cos`). -/
def calculate_area_hectares (b : Bounds) : ℚ :=
  let lat_avg := (b.min_lat + b.max_lat) / 2
  let lon_deg_to_m := 111320 * |lat_avg * 0.017453292519943295|
  let lat_deg_to_m : ℚ := 110540
  let width_m := (b.max_lon - b.min_lon) * lon_deg_to_m
  let height_m := (b.max_lat - b.min_lat) * lat_deg_to_m
  let area_m2 := width_m * height_m
  area_m2 / 10000

theorem calculate_area_hectares_nonneg {b : Bounds} (hb : validate_bounds b = true) :
    0 ≤ calculate_area_hectares b := by
  unfold validate_bounds at hb
  split at hb
  · exact absurd hb (by simp)
  split at hb
  · exact absurd hb (by simp)
  split at hb
  · exact absurd hb (by simp)
  rename_i h3
  push_neg at h3
  unfold calculate_area_hectares
  have h1 : 0 ≤ (111320 : ℚ) * |(b.min_lat + b.max_lat) / 2 * 0.017453292519943295| := by
    positivity
  have h2 : 0 ≤ b.max_lon - b.min_lon := by linarith [h3.1]
  have h4 : 0 ≤ b.max_lat - b.min_lat := by linarith [h3.2]
  have : (0:ℚ) ≤ (b.max_lat - b.min_lat) * 110540 := by linarith
  positivity

/-! ## Claim C4 — `calculate_area_hectares` on valid bounds

The source computes the longitude scale as `111320 * abs(lat_avg * π/180)`
while its own inline comment says `cos(lat in radians)`.  With the code as
written, the area is `0` whenever the mean latitude is `0`, and the area is
not monotone in `max_lat`. -/

/-- Claim C4: evaluating the code at valid bounds whose mean latitude is zero
yields area `0` (the claim requires a strictly positive value), and the area
strictly decreases when `max_lat` grows from `79` to `80` at `min_lat = -80`
(the claim requires it to be monotonically increasing). -/
theorem C4_area_formula_contradicts_claim :
    validate_bounds ⟨-74, -1, -73.9, 1⟩ = true ∧
    calculate_area_hectares ⟨-74, -1, -73.9, 1⟩ = 0 ∧
    validate_bounds ⟨0, -80, 1, 79⟩ = true ∧
    validate_bounds ⟨0, -80, 1, 80⟩ = true ∧
    calculate_area_hectares ⟨0, -80, 1, 80⟩ < calculate_area_hectares ⟨0, -80, 1, 79⟩ := by
  refine ⟨?_, ?_, ?_, ?_, ?_⟩ <;> norm_num [validate_bounds, calculate_area_hectares]

/-! ## Vegetation-index statistics (claim C5)

The three statistics blocks:
* `MockSatelliteClient.get_vegetation_index` (base_client.py lines 190-218),
* `Sentinel2Client._calculate_sentinel2_vegetation_index` (sentinel2_client.py
  lines 289-313),
* `LandsatClient._calculate_landsat_vegetation_index` (landsat_client.py
  lines 366-390).

Random draws and `np.sin` values are passed as parameters (see the header);
`has_imagery` models the `if imagery:` tests (the list itself carries no other
information used by the statistics). -/

/-- The `statistics` dict of a vegetation-index result. -/
structure VegStatistics where
  mean : ℚ
  std : ℚ
  min : ℚ
  max : ℚ
  median : ℚ
  pixel_count : ℤ
  valid_pixels : ℤ

/-- Statistics block of `MockSatelliteClient.get_vegetation_index`.
`seasonal_factor` stands for `0.1 * np.sin(days_from_start / 365.0 * 2 * np.pi)`,
`mean_noise` for `random.uniform(-0.1, 0.1)`, `std_draw` for
`random.uniform(0.05, 0.15)`, `median_noise` for `random.uniform(-0.02, 0.02)`. -/
def mock_vegetation_statistics (area_hectares seasonal_factor mean_noise std_draw
    median_noise : ℚ) : VegStatistics :=
  let base_ndvi : ℚ := if area_hectares > 1000 then 0.6 else 0.4
  let mean_ndvi := base_ndvi + seasonal_factor + mean_noise
  let mean_ndvi := max 0 (min 1 mean_ndvi)
  let std_ndvi := std_draw
  let min_ndvi := max 0 (mean_ndvi - 2 * std_ndvi)
  let max_ndvi := min 1 (mean_ndvi + 2 * std_ndvi)
  { mean := pyRound 4 mean_ndvi
    std := pyRound 4 std_ndvi
    min := pyRound 4 min_ndvi
    max := pyRound 4 max_ndvi
    median := pyRound 4 (mean_ndvi + median_noise)
    pixel_count := truncInt (area_hectares * 100)
    valid_pixels := truncInt (area_hectares * 85) }

/-- `base_values.get(index_type, 0.6)` in
`Sentinel2Client._calculate_sentinel2_vegetation_index`. -/
def sentinel2_base_value (index_type : String) : ℚ :=
  if index_type = "NDVI" then 0.65
  else if index_type = "EVI" then 0.45
  else if index_type = "SAVI" then 0.55
  else if index_type = "MSAVI" then 0.60
  else if index_type = "NDWI" then 0.25
  else if index_type = "NDMI" then 0.35
  else 0.6

/-- Statistics block of `Sentinel2Client._calculate_sentinel2_vegetation_index`.
`sin_draw` stands for `np.sin((avg_date.tm_yday / 365.0) * 2 * np.pi)`,
`avg_cloud_cover` for `np.mean` of the imagery cloud covers, `std_draw` for
`random.uniform(0.08, 0.18)`, `median_noise` for `random.uniform(-0.02, 0.02)`,
`has_imagery` for the `if imagery:` tests. -/
def sentinel2_vegetation_statistics (index_type : String) (area_hectares sin_draw
    avg_cloud_cover std_draw median_noise : ℚ) (has_imagery : Bool) : VegStatistics :=
  let base_value := sentinel2_base_value index_type
  let resolution_boost : ℚ := 0.05
  let seasonal_factor := if has_imagery then 0.15 * sin_draw else 0
  let avg_cloud := if has_imagery then avg_cloud_cover else 10
  let cloud_penalty := avg_cloud / 1000
  let mean_value := base_value + resolution_boost + seasonal_factor - cloud_penalty
  let mean_value := max 0 (min 1 mean_value)
  let std_value := std_draw
  let min_value := max 0 (mean_value - 2.5 * std_value)
  let max_value := min 1 (mean_value + 2.5 * std_value)
  let pixels_per_hectare : ℚ := 10000 / (10 * 10)
  { mean := pyRound 4 mean_value
    std := pyRound 4 std_value
    min := pyRound 4 min_value
    max := pyRound 4 max_value
    median := pyRound 4 (mean_value + median_noise)
    pixel_count := truncInt (area_hectares * pixels_per_hectare)
    valid_pixels := truncInt (area_hectares * pixels_per_hectare * 0.92) }

/-- `base_values.get(index_type, 0.55)` in
`LandsatClient._calculate_landsat_vegetation_index`. -/
def landsat_base_value (index_type : String) : ℚ :=
  if index_type = "NDVI" then 0.62
  else if index_type = "EVI" then 0.42
  else if index_type = "SAVI" then 0.52
  else if index_type = "MSAVI" then 0.58
  else if index_type = "NBR" then 0.45
  else if index_type = "NDMI" then 0.32
  else if index_type = "NDWI" then 0.22
  else 0.55

/-- Statistics block of `LandsatClient._calculate_landsat_vegetation_index`.
Parameters as for the Sentinel-2 variant; `std_draw` stands for
`random.uniform(0.06, 0.14)` and `median_noise` for
`random.uniform(-0.025, 0.025)`. -/
def landsat_vegetation_statistics (index_type : String) (area_hectares sin_draw
    avg_cloud_cover std_draw median_noise : ℚ) (has_imagery : Bool) : VegStatistics :=
  let base_value := landsat_base_value index_type
  let resolution_factor : ℚ := 0.02
  let temporal_depth_bonus : ℚ := if has_imagery then 0.03 else 0
  let seasonal_factor := if has_imagery then 0.12 * sin_draw else 0
  let avg_cloud := if has_imagery then avg_cloud_cover else 15
  let cloud_penalty := avg_cloud / 800
  let mean_value := base_value + resolution_factor + temporal_depth_bonus +
    seasonal_factor - cloud_penalty
  let mean_value := max 0 (min 1 mean_value)
  let std_value := std_draw
  let min_value := max 0 (mean_value - 2.2 * std_value)
  let max_value := min 1 (mean_value + 2.2 * std_value)
  let pixels_per_hectare : ℚ := 10000 / (30 * 30)
  { mean := pyRound 4 mean_value
    std := pyRound 4 std_value
    min := pyRound 4 min_value
    max := pyRound 4 max_value
    median := pyRound 4 (mean_value + median_noise)
    pixel_count := truncInt (area_hectares * pixels_per_hectare)
    valid_pixels := truncInt (area_hectares * pixels_per_hectare * 0.88) }

/-- The well-formedness conditions of claim C5 on one statistics block. -/
def statsWellFormed (s : VegStatistics) : Prop :=
  s.min ≤ s.mean ∧ s.mean ≤ s.max ∧ 0 ≤ s.std ∧
  s.valid_pixels ≤ s.pixel_count ∧ -1 ≤ s.mean ∧ s.mean ≤ 1

theorem pyRound4_zero : pyRound 4 (0 : ℚ) = 0 := by
  norm_num [pyRound, pyRoundInt]

theorem pyRound4_one : pyRound 4 (1 : ℚ) = 1 := by
  norm_num [pyRound, pyRoundInt]

/-- Shared argument for the three statistics blocks: a clamped mean `m`, a
nonnegative spread `s` and multiplier `k`, and pixel counts that truncate
`area * c2` and `area * c1` with `0 ≤ c1 ≤ c2` and `0 ≤ area`. -/
theorem statsWellFormed_core (m s k area c1 c2 median : ℚ) (hm0 : 0 ≤ m)
    (hm1 : m ≤ 1) (hs : 0 ≤ s) (hk : 0 ≤ k) (harea : 0 ≤ area) (hc1 : 0 ≤ c1)
    (hc12 : c1 ≤ c2) :
    statsWellFormed
      { mean := pyRound 4 m, std := pyRound 4 s,
        min := pyRound 4 (max 0 (m - k * s)), max := pyRound 4 (min 1 (m + k * s)),
        median := median,
        pixel_count := truncInt (area * c2), valid_pixels := truncInt (area * c1) } := by
  have hks : 0 ≤ k * s := mul_nonneg hk hs
  refine ⟨?_, ?_, ?_, ?_, ?_, ?_⟩
  · exact pyRound_mono 4 (max_le hm0 (by linarith))
  · exact pyRound_mono 4 (le_min hm1 (by linarith))
  · exact pyRound4_zero ▸ pyRound_mono 4 hs
  · exact truncInt_mono_of_nonneg (mul_nonneg harea hc1)
      (mul_le_mul_of_nonneg_left hc12 harea)
  · have := pyRound4_zero ▸ pyRound_mono 4 hm0
    linarith
  · exact pyRound4_one ▸ pyRound_mono 4 hm1

/-- Claim C5: every statistics block produced by `get_vegetation_index` of the
Mock, Sentinel-2 and Landsat clients on valid bounds satisfies
`min ≤ mean ≤ max`, `std ≥ 0`, `valid_pixels ≤ pixel_count` and
`-1 ≤ mean ≤ 1`. -/
theorem C5_vegetation_statistics_well_formed (b : Bounds) (idxS idxL : String)
    (seasonal noise stdM medM sinS cloudS stdS medS sinL cloudL stdL medL : ℚ)
    (hasS hasL : Bool)
    (hb : validate_bounds b = true)
    (hstdM : 0.05 ≤ stdM ∧ stdM ≤ 0.15)
    (hstdS : 0.08 ≤ stdS ∧ stdS ≤ 0.18)
    (hstdL : 0.06 ≤ stdL ∧ stdL ≤ 0.14) :
    statsWellFormed (mock_vegetation_statistics (calculate_area_hectares b)
      seasonal noise stdM medM) ∧
    statsWellFormed (sentinel2_vegetation_statistics idxS (calculate_area_hectares b)
      sinS cloudS stdS medS hasS) ∧
    statsWellFormed (landsat_vegetation_statistics idxL (calculate_area_hectares b)
      sinL cloudL stdL medL hasL) := by
  have harea := calculate_area_hectares_nonneg hb
  refine ⟨?_, ?_, ?_⟩
  · unfold mock_vegetation_statistics
    exact statsWellFormed_core _ _ _ _ _ _ _ (le_max_left _ _)
      (max_le (by norm_num) (min_le_left _ _)) (by linarith [hstdM.1]) (by norm_num)
      harea (by norm_num) (by norm_num)
  · unfold sentinel2_vegetation_statistics
    have h := statsWellFormed_core
      (max 0 (min 1 (sentinel2_base_value idxS + 0.05 +
        (if hasS then 0.15 * sinS else 0) - (if hasS then cloudS else 10) / 1000)))
      stdS 2.5 (calculate_area_hectares b) (10000 / (10 * 10) * 0.92) (10000 / (10 * 10))
      (pyRound 4 (max 0 (min 1 (sentinel2_base_value idxS + 0.05 +
        (if hasS then 0.15 * sinS else 0) - (if hasS then cloudS else 10) / 1000)) + medS))
      (le_max_left _ _) (max_le (by norm_num) (min_le_left _ _))
      (by linarith [hstdS.1]) (by norm_num) harea (by norm_num) (by norm_num)
    convert h using 2
    ring_nf
  · unfold landsat_vegetation_statistics
    have h := statsWellFormed_core
      (max 0 (min 1 (landsat_base_value idxL + 0.02 +
        (if hasL then 0.03 else 0) + (if hasL then 0.12 * sinL else 0) -
        (if hasL then cloudL else 15) / 800)))
      stdL 2.2 (calculate_area_hectares b) (10000 / (30 * 30) * 0.88) (10000 / (30 * 30))
      (pyRound 4 (max 0 (min 1 (landsat_base_value idxL + 0.02 +
        (if hasL then 0.03 else 0) + (if hasL then 0.12 * sinL else 0) -
        (if hasL then cloudL else 15) / 800)) + medL))
      (le_max_left _ _) (max_le (by norm_num) (min_le_left _ _))
      (by linarith [hstdL.1]) (by norm_num) harea (by norm_num) (by norm_num)
    convert h using 2
    ring_nf

/-! ## Change classification (claims C6, C7)

`Sentinel2Client._classify_change_sentinel2` (sentinel2_client.py lines
436-460) and `LandsatClient._classify_change_landsat` (landsat_client.py lines
533-563).  Both are pure threshold ladders over exact arithmetic; the unused
`import random` inside them draws nothing. -/

/-- `Sentinel2Client._classify_change_sentinel2`.  `relative_change` is a
parameter of the source function that the ladder never reads. -/
def classify_change_sentinel2 (ndvi_change relative_change : ℚ) (days_between : ℤ) :
    String × ℚ :=
  let abs_change := |ndvi_change|
  let base_confidence := min 0.95 (0.6 + abs_change * 2)
  let temporal_confidence := min 1 ((days_between : ℚ) / 365)
  let confidence := base_confidence * temporal_confidence
  if abs_change < 0.05 then ("stable", confidence)
  else if ndvi_change > 0.15 then ("afforestation", confidence)
  else if ndvi_change > 0.08 then ("vegetation_growth", confidence)
  else if ndvi_change < -0.15 then ("deforestation", confidence)
  else if ndvi_change < -0.08 then ("vegetation_loss", confidence)
  else if ndvi_change > 0 then ("vegetation_improvement", confidence * 0.8)
  else ("vegetation_decline", confidence * 0.8)

/-- `LandsatClient._classify_change_landsat`. -/
def classify_change_landsat (ndvi_change nbr_change : ℚ) (days_between : ℤ) :
    String × ℚ :=
  let change_magnitude := max |ndvi_change| |nbr_change|
  let base_confidence := min 0.92 (0.65 + change_magnitude * 1.8)
  let temporal_confidence := min 1 ((days_between : ℚ) / 730)
  let confidence := base_confidence * (0.7 + temporal_confidence * 0.3)
  if change_magnitude < 0.04 then ("stable", confidence)
  else if ndvi_change > 0.12 ∧ nbr_change > 0.08 then ("afforestation", confidence)
  else if ndvi_change > 0.06 then ("vegetation_growth", confidence)
  else if ndvi_change < -0.12 ∧ nbr_change < -0.15 then ("deforestation", confidence)
  else if nbr_change < -0.2 then ("forest_disturbance", confidence)
  else if ndvi_change < -0.06 then ("vegetation_decline", confidence)
  else if nbr_change < -0.1 then ("moderate_disturbance", confidence * 0.9)
  else if ndvi_change > 0 then ("vegetation_improvement", confidence * 0.85)
  else ("vegetation_stress", confidence * 0.8)

/-- Claim C6: below the per-provider noise floor both classifiers return
`"stable"` for every sign of the deltas and every temporal baseline:
`|ndvi_change| < 0.05` for Sentinel-2 and
`max |ndvi_change| |nbr_change| < 0.04` for Landsat. -/
theorem C6_noise_floor_classifies_stable (ncS rcS ncL bcL : ℚ) (dS dL : ℤ)
    (hS : |ncS| < 0.05) (hL : max |ncL| |bcL| < 0.04) :
    (classify_change_sentinel2 ncS rcS dS).1 = "stable" ∧
    (classify_change_landsat ncL bcL dL).1 = "stable" := by
  constructor
  · unfold classify_change_sentinel2
    rw [if_pos hS]
  · unfold classify_change_landsat
    rw [if_pos hL]

theorem C6_noise_floor_classifies_stable_witness :
    (classify_change_sentinel2 (-0.04) 12 (365 : ℤ)).1 = "stable" ∧
    (classify_change_landsat 0.03 (-0.039) (100 : ℤ)).1 = "stable" :=
  C6_noise_floor_classifies_stable (-0.04) 12 0.03 (-0.039) 365 100
    (by rw [abs_of_neg] <;> norm_num)
    (by rw [abs_of_pos (by norm_num), abs_of_neg (by norm_num)]; norm_num)

/-- Claim C7 counterexample: `nbr_change = -0.25` is a strong NBR decline
(`< -0.2`) without NDVI corroboration (`ndvi_change = 0.07` is not
`< -0.12`), yet the classifier returns `"vegetation_growth"`, not the
`"forest_disturbance"` the claim promises: the positive-NDVI rung
`ndvi_change > 0.06` fires first. -/
theorem C7_counterexample_strong_nbr_decline_yields_growth :
    (-0.25 : ℚ) < -0.2 ∧ ¬((0.07 : ℚ) < -0.12) ∧
    (classify_change_landsat 0.07 (-0.25) 180).1 = "vegetation_growth" ∧
    (classify_change_landsat 0.07 (-0.25) 180).1 ≠ "forest_disturbance" := by
  have hmain : (classify_change_landsat 0.07 (-0.25) 180).1 = "vegetation_growth" := by
    unfold classify_change_landsat
    have habs : |(0.07 : ℚ)| = 0.07 := abs_of_pos (by norm_num)
    have habs2 : |(-0.25 : ℚ)| = 0.25 := by rw [abs_of_neg] <;> norm_num
    rw [habs, habs2]
    rw [if_neg (by norm_num [max_lt_iff]), if_neg (by rintro ⟨h1, h2⟩; norm_num at h2),
      if_pos (by norm_num)]
  refine ⟨by norm_num, by norm_num, hmain, ?_⟩
  rw [hmain]
  decide

/-- Claim C7, amended: the Landsat classifier returns `"deforestation"`
exactly when `ndvi_change < -0.12` and `nbr_change < -0.15`; and a strong NBR
decline (`nbr_change < -0.2`) without NDVI corroboration yields
`"forest_disturbance"` provided no positive-NDVI rung fires first
(`ndvi_change ≤ 0.06`) — with `ndvi_change > 0.06` a growth label wins
instead. -/
theorem C7_deforestation_requires_corroboration (nc bc : ℚ) (d : ℤ) :
    ((classify_change_landsat nc bc d).1 = "deforestation" ↔
      nc < -0.12 ∧ bc < -0.15) ∧
    (bc < -0.2 → ¬(nc < -0.12) → nc ≤ 0.06 →
      (classify_change_landsat nc bc d).1 = "forest_disturbance") := by
  constructor
  · unfold classify_change_landsat
    by_cases h1 : max |nc| |bc| < 0.04
    · rw [if_pos h1]
      refine iff_of_false (by simp) ?_
      rintro ⟨hn, hb⟩
      have h12 : (0.12 : ℚ) < |nc| := by rw [abs_of_neg (by linarith)]; linarith
      have := le_max_left |nc| |bc|
      linarith
    rw [if_neg h1]
    by_cases h2 : nc > 0.12 ∧ bc > 0.08
    · rw [if_pos h2]
      exact iff_of_false (by simp) (by rintro ⟨hn, hb⟩; linarith [h2.1])
    rw [if_neg h2]
    by_cases h3 : nc > 0.06
    · rw [if_pos h3]
      exact iff_of_false (by simp) (by rintro ⟨hn, hb⟩; linarith)
    rw [if_neg h3]
    by_cases h4 : nc < -0.12 ∧ bc < -0.15
    · rw [if_pos h4]
      exact iff_of_true rfl h4
    rw [if_neg h4]
    by_cases h5 : bc < -0.2
    · rw [if_pos h5]
      exact iff_of_false (by simp) h4
    rw [if_neg h5]
    by_cases h6 : nc < -0.06
    · rw [if_pos h6]
      exact iff_of_false (by simp) h4
    rw [if_neg h6]
    by_cases h7 : bc < -0.1
    · rw [if_pos h7]
      exact iff_of_false (by simp) h4
    rw [if_neg h7]
    by_cases h8 : nc > 0
    · rw [if_pos h8]
      exact iff_of_false (by simp) h4
    · rw [if_neg h8]
      exact iff_of_false (by simp) h4
  · intro hb hn hn6
    unfold classify_change_landsat
    have hmag : ¬(max |nc| |bc| < 0.04) := by
      push_neg
      have : (0.2 : ℚ) < |bc| := by rw [abs_of_neg (by linarith)]; linarith
      have := le_max_right |nc| |bc|
      linarith
    rw [if_neg hmag, if_neg (by rintro ⟨h1, h2⟩; linarith), if_neg (by linarith),
      if_neg (by rintro ⟨h1, h2⟩; exact hn h1), if_pos hb]

theorem C7_deforestation_requires_corroboration_witness :
    (classify_change_landsat 0 (-0.25) (10 : ℤ)).1 = "forest_disturbance" :=
  (C7_deforestation_requires_corroboration 0 (-0.25) 10).2
    (by norm_num) (by norm_num) (by norm_num)

/-! ## `SatelliteDataService._analyze_project_with_client` (claim C3)

satellite_service.py lines 163-221.  The four sub-queries are launched with
`asyncio.gather(..., return_exceptions=True)`, so each outcome arrives either
as a value or as an exception object; we pass the four outcomes as `Except`
values.  The body of the outer `try` can then no longer raise, so the
`except` branch (lines 215-221, producing `success: False`) is reachable only
through that dead path; `failed_client_result` below models its output shape
for the orchestrator-level claims. -/

/-- The per-client result dict.  The failure shape (lines 217-221) stores no
analysis keys and an `error` message; `.get` on a missing key yields `None`,
hence `Option` fields. -/
structure ClientResult (V C I : Type) where
  success : Bool
  client_name : String
  baseline_vegetation : Option V
  current_vegetation : Option V
  change_analysis : Option C
  imagery_metadata : Option I
  errors : List String
  error : Option String
deriving DecidableEq

/-- Error-message collection of lines 202-211. -/
def gatherErrors {α : Type} (name : String) : Except String α → List String
  | .error e => ["Error in " ++ name ++ ": " ++ e]
  | .ok _ => []

/-- `SatelliteDataService._analyze_project_with_client`, lines 190-213: the
result built after the fan-out join. -/
def analyze_project_with_client {V C I : Type} (client_name : String)
    (baseline_ndvi current_ndvi : Except String V) (change_detection : Except String C)
    (imagery_metadata : Except String I) : ClientResult V C I :=
  { success := true
    client_name := client_name
    baseline_vegetation := baseline_ndvi.toOption
    current_vegetation := current_ndvi.toOption
    change_analysis := change_detection.toOption
    imagery_metadata := imagery_metadata.toOption
    errors := gatherErrors "baseline_vegetation" baseline_ndvi ++
      gatherErrors "current_vegetation" current_ndvi ++
      gatherErrors "change_analysis" change_detection ++
      gatherErrors "imagery_metadata" imagery_metadata
    error := none }

/-- The `except` branch of `_analyze_project_with_client` (lines 215-221). -/
def failed_client_result (V C I : Type) (client_name msg : String) :
    ClientResult V C I :=
  { success := false
    client_name := client_name
    baseline_vegetation := none
    current_vegetation := none
    change_analysis := none
    imagery_metadata := none
    errors := []
    error := some msg }

/-- Claim C3: whichever single one of the four fanned-out sub-queries raises,
the per-provider result still reports `success = true`, the corresponding
field is `None`, and the other three fields carry the sub-query results. -/
theorem C3_single_subquery_failure_degrades_one_field {V C I : Type}
    (name e : String) (v1 v2 : V) (c : C) (i : I) :
    (let r := @analyze_project_with_client V C I name (.error e) (.ok v2) (.ok c) (.ok i)
     r.success = true ∧ r.baseline_vegetation = none ∧
     r.current_vegetation = some v2 ∧ r.change_analysis = some c ∧
     r.imagery_metadata = some i) ∧
    (let r := @analyze_project_with_client V C I name (.ok v1) (.error e) (.ok c) (.ok i)
     r.success = true ∧ r.current_vegetation = none ∧
     r.baseline_vegetation = some v1 ∧ r.change_analysis = some c ∧
     r.imagery_metadata = some i) ∧
    (let r := @analyze_project_with_client V C I name (.ok v1) (.ok v2) (.error e) (.ok i)
     r.success = true ∧ r.change_analysis = none ∧
     r.baseline_vegetation = some v1 ∧ r.current_vegetation = some v2 ∧
     r.imagery_metadata = some i) ∧
    (let r := @analyze_project_with_client V C I name (.ok v1) (.ok v2) (.ok c) (.error e)
     r.success = true ∧ r.imagery_metadata = none ∧
     r.baseline_vegetation = some v1 ∧ r.current_vegetation = some v2 ∧
     r.change_analysis = some c) := by
  refine ⟨?_, ?_, ?_, ?_⟩ <;>
    exact ⟨rfl, rfl, rfl, rfl, rfl⟩

/-! ## `SatelliteDataService.get_project_satellite_analysis` (claims C1, C2, C8)

satellite_service.py lines 69-161 and 223-258.  The per-provider behaviour is
abstracted as a function `analyze : Bounds → start → analysis_date → name →
ClientResult` (the dates are day ordinals, `ℤ`); `_analyze_project_with_client`
itself never raises (its whole body sits in a `try/except` returning
`failed_client_result`), so inside the orchestrator `try` block every step is
total and the `except` branch at lines 135-145 is unreachable — the only
statement that can raise is the date check at lines 91-92, which sits before
the `try`.  `analysis_date` (defaulted to `date.today()` in the source) is an
explicit argument here.  The extraction helpers applied to the chosen primary
result (lines 260-433) are pure projections no claim inspects, so the
synthesized analysis keeps the primary `ClientResult` itself. -/

/-- The client registry set up in the service constructor (insertion order of the
`self.clients` dict: mock, sentinel2, landsat). -/
def registered_clients : List String := ["mock", "sentinel2", "landsat"]

/-- Default branch of `SatelliteDataService._select_clients` (lines 155-161). -/
def default_client_selection : List String :=
  if registered_clients.contains "sentinel2" then ["sentinel2", "mock"]
  else if registered_clients.contains "landsat" then ["landsat", "mock"]
  else ["mock"]

/-- `SatelliteDataService._select_clients` (lines 147-161).  An empty
preference list is falsy in Python, hence falls through to the default. -/
def select_clients (client_preference : Option (List String)) : List String :=
  match client_preference with
  | some pref =>
      if pref = [] then default_client_selection
      else
        let available_preferred := pref.filter (fun c => registered_clients.contains c)
        if available_preferred = [] then default_client_selection
        else available_preferred
  | none => default_client_selection

/-- The query loop of lines 102-113, remembering the head of
`clients_to_use`: after storing a result, the loop breaks only when
`client_name == clients_to_use[0]` and that result reported success. -/
def query_clients_from {V C I : Type} (f : String → ClientResult V C I)
    (first : String) : List String → List (String × ClientResult V C I)
  | [] => []
  | c :: rest =>
      (c, f c) ::
        (if c = first ∧ (f c).success = true then []
         else query_clients_from f first rest)

/-- The query loop of lines 102-113 over `clients_to_use`. -/
def query_clients {V C I : Type} (f : String → ClientResult V C I) :
    List String → List (String × ClientResult V C I)
  | [] => []
  | c :: rest => query_clients_from f c (c :: rest)

/-- Completeness count of lines 235-238: non-null entries among
`baseline_vegetation`, `current_vegetation`, `change_analysis`. -/
def completeness {V C I : Type} (r : ClientResult V C I) : ℕ :=
  (if r.baseline_vegetation.isSome then 1 else 0) +
  (if r.current_vegetation.isSome then 1 else 0) +
  (if r.change_analysis.isSome then 1 else 0)

/-- Best-result selection loop of `_synthesize_project_analysis`
(lines 230-241). -/
def best_result_loop {V C I : Type} (best : Option (ClientResult V C I × ℕ)) :
    List (String × ClientResult V C I) → Option (ClientResult V C I × ℕ)
  | [] => best
  | (_, result) :: rest =>
      if result.success = true then
        let c := completeness result
        match best with
        | none => best_result_loop (some (result, c)) rest
        | some b =>
            if c > b.2 then best_result_loop (some (result, c)) rest
            else best_result_loop (some b) rest
      else best_result_loop best rest

/-- Outcome of `_synthesize_project_analysis` (lines 243-258): either the
`{"error": ...}` dict (line 244) or the analysis built from the chosen
primary result. -/
inductive SynthesizedAnalysis (V C I : Type) where
  | noData (error : String)
  | analysis (primary : ClientResult V C I)
deriving DecidableEq

/-- `SatelliteDataService._synthesize_project_analysis` (lines 223-258). -/
def synthesize_project_analysis {V C I : Type}
    (client_results : List (String × ClientResult V C I)) :
    SynthesizedAnalysis V C I :=
  match best_result_loop none client_results with
  | none => .noData "No successful satellite analysis available"
  | some (primary, _) => .analysis primary

/-- `SatelliteDataService._assess_analysis_quality` (lines 435-447). -/
def assess_analysis_quality {V C I : Type}
    (results : List (String × ClientResult V C I)) : String :=
  let successful_analyses := (results.filter (fun p => p.2.success)).length
  let total_analyses := results.length
  if successful_analyses = 0 then "poor"
  else if (successful_analyses : ℚ) / total_analyses ≥ 0.8 then "excellent"
  else if (successful_analyses : ℚ) / total_analyses ≥ 0.6 then "good"
  else "fair"

/-- The dict returned by `get_project_satellite_analysis` on its success path
(lines 118-133).  The `except` shape of lines 137-145 would set
`success := false` with a top-level `error`, but that path is unreachable. -/
structure TopLevelResult (V C I : Type) where
  success : Bool
  error : Option String
  monitoring_duration_days : Option ℤ
  satellite_analysis : Option (SynthesizedAnalysis V C I)
  data_sources : List String
  analysis_quality : Option String
deriving DecidableEq

/-- `SatelliteDataService.get_project_satellite_analysis` (lines 69-145). -/
def get_project_satellite_analysis {V C I : Type}
    (analyze : Bounds → ℤ → ℤ → String → ClientResult V C I)
    (project_bounds : Bounds) (project_start_date analysis_date : ℤ)
    (client_preference : Option (List String)) :
    Except String (TopLevelResult V C I) :=
  if project_start_date ≥ analysis_date then
    .error "Project start date must be before analysis date"
  else
    let clients_to_use := select_clients client_preference
    let results := query_clients
      (fun c => analyze project_bounds project_start_date analysis_date c) clients_to_use
    let analysis := synthesize_project_analysis results
    .ok { success := true
          error := none
          monitoring_duration_days := some (analysis_date - project_start_date)
          satellite_analysis := some analysis
          data_sources := results.map Prod.fst
          analysis_quality := some (assess_analysis_quality results) }

theorem query_clients_from_mem {V C I : Type} (f : String → ClientResult V C I)
    (first : String) : ∀ (cs : List String) (p : String × ClientResult V C I),
    p ∈ query_clients_from f first cs → p.2 = f p.1
  | c :: rest, p, hp => by
      unfold query_clients_from at hp
      rcases List.mem_cons.mp hp with h | h
      · subst h; rfl
      · split at h
        · exact absurd h (List.not_mem_nil p)
        · exact query_clients_from_mem f first rest p h

theorem query_clients_mem {V C I : Type} (f : String → ClientResult V C I)
    (cs : List String) (p : String × ClientResult V C I)
    (hp : p ∈ query_clients f cs) : p.2 = f p.1 := by
  cases cs with
  | nil => exact absurd hp (List.not_mem_nil p)
  | cons c rest => exact query_clients_from_mem f c (c :: rest) p hp

theorem best_result_loop_all_failed {V C I : Type} :
    ∀ (l : List (String × ClientResult V C I)),
    (∀ p ∈ l, p.2.success = false) → best_result_loop none l = none
  | [], _ => rfl
  | (n, r) :: rest, h => by
      unfold best_result_loop
      rw [if_neg (by simpa using h (n, r) (List.mem_cons_self _ _))]
      exact best_result_loop_all_failed rest
        (fun p hp => h p (List.mem_cons_of_mem _ hp))

theorem query_clients_from_no_break {V C I : Type}
    (f : String → ClientResult V C I) (first : String)
    (hf : (f first).success = false) :
    ∀ cs : List String, query_clients_from f first cs =
      cs.map (fun c => (c, f c))
  | [] => rfl
  | c :: rest => by
      unfold query_clients_from
      rw [if_neg (by rintro ⟨hc, hs⟩; rw [hc, hf] at hs; exact Bool.false_ne_true hs)]
      rw [query_clients_from_no_break f first hf rest]
      rfl

/-- Claim C8, amended: the query loop breaks only when the provider just
queried is the first element of the selection list and reported success.  If
the first selected provider succeeds, it is the only provider queried;
otherwise every selected provider is queried — even those after a later
provider that succeeded. -/
theorem C8_early_exit_only_for_first_provider {V C I : Type}
    (f : String → ClientResult V C I) (c : String) (rest : List String) :
    ((f c).success = true →
      (query_clients f (c :: rest)).map Prod.fst = [c]) ∧
    ((f c).success = false →
      (query_clients f (c :: rest)).map Prod.fst = c :: rest) := by
  constructor
  · intro h
    unfold query_clients query_clients_from
    rw [if_pos ⟨rfl, h⟩]
    rfl
  · intro h
    unfold query_clients query_clients_from
    rw [if_neg (by rintro ⟨-, hs⟩; rw [h] at hs; exact Bool.false_ne_true hs)]
    rw [query_clients_from_no_break f c h rest]
    show c :: (rest.map (fun x => (x, f x))).map Prod.fst = c :: rest
    rw [List.map_map]
    exact congrArg (c :: ·) (List.map_id rest)

theorem C8_early_exit_only_for_first_provider_witness :
    (query_clients (fun n =>
        @analyze_project_with_client Unit Unit Unit n (.ok ()) (.ok ()) (.ok ()) (.ok ()))
      ["sentinel2", "mock"]).map Prod.fst = ["sentinel2"] :=
  (C8_early_exit_only_for_first_provider _ "sentinel2" ["mock"]).1 rfl

/-- Per-provider results for the C8 counterexample: `sentinel2` fails,
`landsat` and `mock` succeed (mirroring one failing live client with the
others healthy). -/
def c8_provider_results : Bounds → ℤ → ℤ → String → ClientResult Unit Unit Unit :=
  fun _ _ _ name =>
    if name = "sentinel2" then failed_client_result Unit Unit Unit name "Auth failure"
    else analyze_project_with_client name (.ok ()) (.ok ()) (.ok ()) (.ok ())

/-- Claim C8 counterexample: with preference
`["sentinel2", "landsat", "mock"]`, `sentinel2` failing and `landsat`
succeeding, the orchestrator still queries `mock` after `landsat` succeeded —
the loop breaks only for the first-listed provider, so querying does not stop
at the first success. -/
theorem C8_counterexample_later_success_does_not_stop_querying :
    (c8_provider_results ⟨-74, 4.6, -73.9, 4.7⟩ 0 100 "landsat").success = true ∧
    (get_project_satellite_analysis c8_provider_results ⟨-74, 4.6, -73.9, 4.7⟩ 0 100
        (some ["sentinel2", "landsat", "mock"])).toOption.map
      (fun r => r.data_sources) = some ["sentinel2", "landsat", "mock"] := by
  constructor
  · rfl
  · rfl

/-- Claim C1, amended: when every selected provider reports failure, the call
still returns without an exception, but the returned object carries
`success = true` and no top-level error; the failure is signalled only by the
nested `satellite_analysis` value `{"error": <non-empty>}` produced at
line 244. -/
theorem C1_all_providers_fail_returns_success_true {V C I : Type}
    (f : Bounds → ℤ → ℤ → String → ClientResult V C I) (b : Bounds)
    (pref : Option (List String)) (start analysis : ℤ)
    (hdates : ¬(start ≥ analysis))
    (hfail : ∀ bb s a c, (f bb s a c).success = false) :
    (get_project_satellite_analysis f b start analysis pref).toOption.map
      (fun r => r.success) = some true ∧
    (get_project_satellite_analysis f b start analysis pref).toOption.map
      (fun r => r.error) = some none ∧
    (get_project_satellite_analysis f b start analysis pref).toOption.map
      (fun r => r.satellite_analysis) =
      some (some (.noData "No successful satellite analysis available")) ∧
    "No successful satellite analysis available" ≠ "" := by
  have hsynth : synthesize_project_analysis
      (query_clients (fun c => f b start analysis c) (select_clients pref)) =
      SynthesizedAnalysis.noData "No successful satellite analysis available" := by
    unfold synthesize_project_analysis
    rw [best_result_loop_all_failed _ (fun p hp => by
      rw [query_clients_mem _ _ p hp]; exact hfail b start analysis p.1)]
  unfold get_project_satellite_analysis
  rw [if_neg hdates]
  refine ⟨rfl, rfl, ?_, by decide⟩
  simp only [Except.toOption, Option.map]
  rw [hsynth]

/-- Per-provider results for the C1 counterexample and witness: every
provider fails outright (`_analyze_project_with_client` catches the failure
and reports `success: False`). -/
def all_failing_provider_results : Bounds → ℤ → ℤ → String → ClientResult Unit Unit Unit :=
  fun _ _ _ name => failed_client_result Unit Unit Unit name "API unavailable"

/-- Claim C1 counterexample: with every selected provider failing, the
orchestrated call returns an object whose `success` field is `true` (the
claim requires `false`) and whose top-level `error` field is absent (the
claim requires a non-empty string); only the nested analysis carries the
error. -/
theorem C1_counterexample_all_fail_still_success_true :
    (get_project_satellite_analysis all_failing_provider_results
        ⟨-74, 4.6, -73.9, 4.7⟩ 0 100 none).toOption.map
      (fun r => r.success) = some true ∧
    (get_project_satellite_analysis all_failing_provider_results
        ⟨-74, 4.6, -73.9, 4.7⟩ 0 100 none).toOption.map
      (fun r => r.error) = some none := by
  exact ⟨rfl, rfl⟩

theorem C1_all_providers_fail_returns_success_true_witness :
    (get_project_satellite_analysis all_failing_provider_results
        ⟨-74, 4.6, -73.9, 4.7⟩ 0 100 (some ["landsat", "mock"])).toOption.map
      (fun r => r.success) = some true ∧
    (get_project_satellite_analysis all_failing_provider_results
        ⟨-74, 4.6, -73.9, 4.7⟩ 0 100 (some ["landsat", "mock"])).toOption.map
      (fun r => r.error) = some none ∧
    (get_project_satellite_analysis all_failing_provider_results
        ⟨-74, 4.6, -73.9, 4.7⟩ 0 100 (some ["landsat", "mock"])).toOption.map
      (fun r => r.satellite_analysis) =
      some (some (.noData "No successful satellite analysis available")) ∧
    "No successful satellite analysis available" ≠ "" :=
  C1_all_providers_fail_returns_success_true all_failing_provider_results
    ⟨-74, 4.6, -73.9, 4.7⟩ (some ["landsat", "mock"]) 0 100
    (by decide) (fun _ _ _ _ => rfl)

/-- Claim C2, amended: `get_project_satellite_analysis` raises exactly when
`project_start_date ≥ analysis_date` — malformed bounds do not raise (the
per-provider sub-queries catch the bounds-validation `ValueError` and degrade
their fields to `None`), and provider failures never raise. -/
theorem C2_raises_iff_start_not_before_analysis {V C I : Type}
    (f : Bounds → ℤ → ℤ → String → ClientResult V C I) (b : Bounds)
    (pref : Option (List String)) (start analysis : ℤ) :
    (start ≥ analysis →
      get_project_satellite_analysis f b start analysis pref =
        .error "Project start date must be before analysis date") ∧
    (¬(start ≥ analysis) →
      (get_project_satellite_analysis f b start analysis pref).toOption.isSome
        = true) := by
  constructor
  · intro h
    unfold get_project_satellite_analysis
    rw [if_pos h]
  · intro h
    unfold get_project_satellite_analysis
    rw [if_neg h]
    rfl

/-- The per-client result produced on malformed bounds: each of the four
sub-queries raises `ValueError("Invalid geographic bounds")` (every client
method begins with `if not self.validate_bounds(bounds): raise ValueError`),
all four exceptions are captured by the gather, and
`_analyze_project_with_client` still reports `success: True` with four `None`
fields. -/
def invalid_bounds_client_result (name : String) : ClientResult Unit Unit Unit :=
  analyze_project_with_client name
    (.error "Invalid geographic bounds") (.error "Invalid geographic bounds")
    (.error "Invalid geographic bounds") (.error "Invalid geographic bounds")

/-- Claim C2 counterexample: on malformed bounds (here `min_lon > max_lon`
and `min_lat > max_lat`, rejected by `validate_bounds`) the orchestrated call
does not raise at all — it returns `success = true` — because the bounds
validation happens inside the fanned-out sub-queries, whose exceptions are
captured.  The claim requires a raise on malformed bounds. -/
theorem C2_counterexample_malformed_bounds_do_not_raise :
    validate_bounds ⟨10, 5, 0, 0⟩ = false ∧
    (get_project_satellite_analysis (fun _ _ _ n => invalid_bounds_client_result n)
        ⟨10, 5, 0, 0⟩ 0 100 none).toOption.map (fun r => r.success) = some true := by
  constructor
  · norm_num [validate_bounds]
  · rfl

theorem C2_raises_iff_start_not_before_analysis_witness :
    get_project_satellite_analysis (fun _ _ _ n => invalid_bounds_client_result n)
        ⟨-74, 4.6, -73.9, 4.7⟩ 100 50 none =
      Except.error "Project start date must be before analysis date" :=
  (C2_raises_iff_start_not_before_analysis
      (fun _ _ _ n => invalid_bounds_client_result n)
      ⟨-74, 4.6, -73.9, 4.7⟩ none 100 50).1 (by decide)

/-! ## `app/satellite/indices/vegetation_indices.py` (claims C9, C10)

`VegetationIndicesCalculator.calculate_comprehensive_indices` and its helpers.
Only the numeric `value` entries of each index dict are modelled (the other
entries are fixed strings no claim inspects).  `np.log` is passed in as a
function parameter `log` (see the header); inside the reachable branch its
argument is always `≥ 1`.  The only statement in the `try` body that can raise
is the division in `_calculate_savi` (a `ZeroDivisionError` when
`1 + L * ndvi = 0` with `L = 0.5`), which the outer `except` turns into a
`success: False` dict — hence the `Option` result. -/

/-- `_calculate_evi2` (value field). -/
def calculate_evi2 (ndvi : ℚ) : ℚ :=
  pyRound 4 (max 0 (min 1 (ndvi * 0.8 + 0.1)))

/-- `_calculate_savi` (value field); raises in Python when `1 + L * ndvi = 0`. -/
def calculate_savi (ndvi L : ℚ) : ℚ :=
  pyRound 4 (max 0 (min 1 (ndvi * (1 + L) / (1 + L * ndvi))))

/-- `_calculate_msavi` (value field). -/
def calculate_msavi (ndvi : ℚ) : ℚ :=
  pyRound 4 (max 0 (min 1 (ndvi * 0.95 + 0.02)))

/-- `_calculate_gndvi` (value field). -/
def calculate_gndvi (ndvi : ℚ) : ℚ :=
  pyRound 4 (max 0 (min 1 (ndvi * 0.85 + 0.05)))

/-- `_estimate_lai` (value field), with `np.log` as the parameter `log`. -/
def estimate_lai (log : ℚ → ℚ) (ndvi evi : ℚ) : ℚ :=
  let lai_value :=
    if ndvi < 0.2 then 0.1
    else if ndvi < 0.5 then (ndvi - 0.2) * 6.67
    else 2 + log (1 + (ndvi - 0.5) * 10) * 1.5
  let evi_factor := if ndvi > 0 then max 0.8 (min 1.2 (evi / ndvi)) else 1
  let lai_value := lai_value * evi_factor
  pyRound 2 (max 0.1 (min 8.0 lai_value))

/-- `_calculate_fpar` (value field). -/
def calculate_fpar (ndvi : ℚ) : ℚ :=
  let fpar_value :=
    if ndvi < 0.125 then 0
    else if ndvi > 0.8 then 0.95
    else 1.25 * ndvi - 0.15625
  pyRound 4 (max 0 (min 0.95 fpar_value))

/-- `climate_factors.get(climate_zone.lower(), 1.0)` in `_estimate_gpp`. -/
def climate_factor (climate_zone : String) : ℚ :=
  let z := climate_zone.toLower
  if z = "tropical" then 1.3
  else if z = "subtropical" then 1.1
  else if z = "temperate" then 1.0
  else if z = "boreal" then 0.8
  else if z = "mediterranean" then 1.05
  else if z = "arid" then 0.6
  else if z = "semi-arid" then 0.75
  else 1.0

/-- `_estimate_gpp`: `(value_kg_c_m2_year, value_tons_co2_ha_year)`. -/
def estimate_gpp (ndvi evi : ℚ) (climate_zone : String) : ℚ × ℚ :=
  let base_gpp := (ndvi * 0.6 + evi * 0.4) * 15
  let adjusted_gpp := base_gpp * climate_factor climate_zone
  let co2_equivalent := adjusted_gpp * 44 / 12 * 10
  (pyRound 2 adjusted_gpp, pyRound 2 co2_equivalent)

/-- `_calculate_vci` (value field); `normal_ndvi` is the fixed baseline 0.6. -/
def calculate_vci (ndvi : ℚ) : ℚ :=
  let normal_ndvi : ℚ := 0.6
  let vci_value := if normal_ndvi > 0 then ndvi / normal_ndvi * 100 else 50
  pyRound 1 (max 0 (min 200 vci_value))

/-- `_estimate_nbr` (value field). -/
def estimate_nbr (ndvi : ℚ) : ℚ :=
  pyRound 4 (max (-1) (min 1 (ndvi * 0.7 - 0.1)))

/-- The carbon metrics dict of `_calculate_carbon_metrics` (lines 300-332);
its inputs are the already-rounded `lai`, `fpar` and `value_tons_co2_ha_year`
output fields (`fpar` is extracted by the source but unused). -/
structure CarbonMetrics where
  above_ground_biomass_tons_ha : ℚ
  carbon_stock_tons_c_ha : ℚ
  npp_tons_c_ha_year : ℚ
  sequestration_rate_tons_co2_ha_year : ℚ
deriving DecidableEq

/-- `_calculate_carbon_metrics`. -/
def calculate_carbon_metrics (lai fpar gpp : ℚ) : CarbonMetrics :=
  let agb := lai * 25
  let carbon_stock := agb * 0.47
  let npp := gpp * 0.45
  let sequestration_rate := npp * 44 / 12
  { above_ground_biomass_tons_ha := pyRound 1 agb
    carbon_stock_tons_c_ha := pyRound 1 carbon_stock
    npp_tons_c_ha_year := pyRound 2 npp
    sequestration_rate_tons_co2_ha_year := pyRound 2 sequestration_rate }

/-- The quality dict of `_assess_data_quality` (lines 345-373). -/
structure QualityAssessment where
  overall_score : ℤ
  quality_level : String
  issues_identified : List String
  data_completeness : ℤ
deriving DecidableEq

/-- `_assess_data_quality`: two 25-point range checks plus the unconditional
50-point base score. -/
def assess_data_quality (lai_value fpar_value : ℚ) : QualityAssessment :=
  let s1 : ℤ := if 0.1 ≤ lai_value ∧ lai_value ≤ 8 then 25 else 0
  let i1 : List String :=
    if 0.1 ≤ lai_value ∧ lai_value ≤ 8 then []
    else ["LAI value outside realistic range"]
  let s2 : ℤ := if 0 ≤ fpar_value ∧ fpar_value ≤ 0.95 then 25 else 0
  let i2 : List String :=
    if 0 ≤ fpar_value ∧ fpar_value ≤ 0.95 then []
    else ["fPAR value outside realistic range"]
  let quality_score := s1 + s2 + 50
  { overall_score := quality_score
    quality_level :=
      if quality_score ≥ 80 then "high"
      else if quality_score ≥ 60 then "medium"
      else "low"
    issues_identified := i1 ++ i2
    data_completeness := 100 }

/-- `_generate_recommendations` (threshold-triggered recommendation list). -/
def generate_recommendations (lai sequestration_rate vci : ℚ) : List String :=
  (if lai < 2 then
    ["Low vegetation density detected. Consider reforestation or afforestation activities."]
   else []) ++
  (if sequestration_rate < 5 then
    ["Low carbon sequestration potential. Investigate soil conditions and species selection."]
   else []) ++
  (if sequestration_rate > 15 then
    ["High carbon sequestration potential identified. Prioritize for carbon credit development."]
   else []) ++
  (if vci < 80 then
    ["Vegetation condition below normal. Monitor for stress factors."]
   else [])

/-- The numeric `value` fields of the `indices` dict. -/
structure IndexValues where
  evi2 : ℚ
  savi : ℚ
  msavi : ℚ
  gndvi : ℚ
  lai : ℚ
  fpar : ℚ
  gpp_kg_c_m2_year : ℚ
  gpp_tons_co2_ha_year : ℚ
  vci : ℚ
  nbr : ℚ
deriving DecidableEq

/-- The successful return value of `calculate_comprehensive_indices`. -/
structure ComprehensiveResult where
  indices : IndexValues
  carbon_metrics : CarbonMetrics
  quality_assessment : QualityAssessment
  recommendations : List String
deriving DecidableEq

/-- `VegetationIndicesCalculator.calculate_comprehensive_indices`
(lines 33-105): `none` models the `except` branch (`success: False`),
reachable only through the `ZeroDivisionError` in `_calculate_savi`. -/
def calculate_comprehensive_indices (log : ℚ → ℚ) (ndvi evi : ℚ)
    (climate_zone : String) : Option ComprehensiveResult :=
  if 1 + 0.5 * ndvi = 0 then none
  else
    let lai := estimate_lai log ndvi evi
    let fpar := calculate_fpar ndvi
    let gpp := estimate_gpp ndvi evi climate_zone
    let carbon := calculate_carbon_metrics lai fpar gpp.2
    some
      { indices :=
          { evi2 := calculate_evi2 ndvi
            savi := calculate_savi ndvi 0.5
            msavi := calculate_msavi ndvi
            gndvi := calculate_gndvi ndvi
            lai := lai
            fpar := fpar
            gpp_kg_c_m2_year := gpp.1
            gpp_tons_co2_ha_year := gpp.2
            vci := calculate_vci ndvi
            nbr := estimate_nbr ndvi }
        carbon_metrics := carbon
        quality_assessment := assess_data_quality lai fpar
        recommendations := generate_recommendations lai
          carbon.sequestration_rate_tons_co2_ha_year (calculate_vci ndvi) }

theorem pyRound2_tenth : pyRound 2 (0.1 : ℚ) = 0.1 := by
  norm_num [pyRound, pyRoundInt]

theorem pyRound2_eight : pyRound 2 (8.0 : ℚ) = 8.0 := by
  norm_num [pyRound, pyRoundInt]

theorem pyRound4_ninety_five_hundredths : pyRound 4 (0.95 : ℚ) = 0.95 := by
  norm_num [pyRound, pyRoundInt]

/-- The output `lai` value is always inside `[0.1, 8]`. -/
theorem estimate_lai_mem (log : ℚ → ℚ) (ndvi evi : ℚ) :
    0.1 ≤ estimate_lai log ndvi evi ∧ estimate_lai log ndvi evi ≤ 8.0 := by
  unfold estimate_lai
  exact pyRound_mem_of_mem pyRound2_tenth pyRound2_eight
    (le_max_left _ _) (max_le (by norm_num) (min_le_left _ _))

/-- The output `fpar` value is always inside `[0, 0.95]`. -/
theorem calculate_fpar_mem (ndvi : ℚ) :
    0 ≤ calculate_fpar ndvi ∧ calculate_fpar ndvi ≤ 0.95 := by
  unfold calculate_fpar
  exact pyRound_mem_of_mem pyRound4_zero pyRound4_ninety_five_hundredths
    (le_max_left _ _) (max_le (by norm_num) (min_le_left _ _))

/-- Claim C9: for every successful synthesizer run, the derived LAI lies in
`[0.1, 8.0]` and the carbon-metric output fields equal the fixed allometric
formulas — biomass `= LAI × 25`, carbon stock `= biomass × 0.47`,
NPP `= 0.45 × GPP`, sequestration rate `= NPP × 44/12` — up to the stated
rounding of each output field. -/
theorem C9_lai_bounds_and_allometric_equations (log : ℚ → ℚ) (ndvi evi : ℚ)
    (climate_zone : String) (r : ComprehensiveResult)
    (h : calculate_comprehensive_indices log ndvi evi climate_zone = some r) :
    (0.1 ≤ r.indices.lai ∧ r.indices.lai ≤ 8.0) ∧
    r.carbon_metrics.above_ground_biomass_tons_ha =
      pyRound 1 (r.indices.lai * 25) ∧
    r.carbon_metrics.carbon_stock_tons_c_ha =
      pyRound 1 (r.indices.lai * 25 * 0.47) ∧
    r.carbon_metrics.npp_tons_c_ha_year =
      pyRound 2 (r.indices.gpp_tons_co2_ha_year * 0.45) ∧
    r.carbon_metrics.sequestration_rate_tons_co2_ha_year =
      pyRound 2 (r.indices.gpp_tons_co2_ha_year * 0.45 * 44 / 12) := by
  unfold calculate_comprehensive_indices at h
  split at h
  · exact absurd h (by simp)
  · injection h with h
    subst h
    exact ⟨estimate_lai_mem log ndvi evi, rfl, rfl, rfl, rfl⟩

/-- Claim C10: every successful `calculate_comprehensive_indices` run scores
`overall_score = 100` with `quality_level = "high"` and no identified issues,
because the clamped LAI and fPAR always pass both 25-point range checks on
top of the unconditional 50-point base score. -/
theorem C10_quality_score_always_100 (log : ℚ → ℚ) (ndvi evi : ℚ)
    (climate_zone : String) (r : ComprehensiveResult)
    (h : calculate_comprehensive_indices log ndvi evi climate_zone = some r) :
    r.quality_assessment.overall_score = 100 ∧
    r.quality_assessment.quality_level = "high" ∧
    r.quality_assessment.issues_identified = [] := by
  unfold calculate_comprehensive_indices at h
  split at h
  · exact absurd h (by simp)
  · injection h with h
    subst h
    have hL0 := estimate_lai_mem log ndvi evi
    have hL : 0.1 ≤ estimate_lai log ndvi evi ∧ estimate_lai log ndvi evi ≤ 8 :=
      ⟨hL0.1, le_trans hL0.2 (by norm_num)⟩
    have hF := calculate_fpar_mem ndvi
    show (assess_data_quality (estimate_lai log ndvi evi) (calculate_fpar ndvi)).overall_score
        = 100 ∧ _ ∧ _
    unfold assess_data_quality
    simp only [if_pos hL, if_pos hF]
    refine ⟨by norm_num, by norm_num, rfl⟩

/-- A concrete successful run (the inputs of the module self-test at the
bottom of vegetation_indices.py), used by the C9/C10 witnesses. -/
def comprehensive_example : ComprehensiveResult :=
  (calculate_comprehensive_indices (fun _ => 0) 0.7 0.6 "tropical").getD
    { indices := { evi2 := 0, savi := 0, msavi := 0, gndvi := 0, lai := 0, fpar := 0,
                   gpp_kg_c_m2_year := 0, gpp_tons_co2_ha_year := 0, vci := 0, nbr := 0 }
      carbon_metrics := { above_ground_biomass_tons_ha := 0, carbon_stock_tons_c_ha := 0,
                          npp_tons_c_ha_year := 0, sequestration_rate_tons_co2_ha_year := 0 }
      quality_assessment := { overall_score := 0, quality_level := "",
                              issues_identified := [], data_completeness := 0 }
      recommendations := [] }

theorem comprehensive_example_eq :
    calculate_comprehensive_indices (fun _ => 0) 0.7 0.6 "tropical" =
      some comprehensive_example := by
  unfold comprehensive_example
  have hcond : ¬(1 + (0.5 : ℚ) * 0.7 = 0) := by norm_num
  unfold calculate_comprehensive_indices
  rw [if_neg hcond]
  rfl

theorem C9_lai_bounds_and_allometric_equations_witness :
    (0.1 ≤ comprehensive_example.indices.lai ∧
      comprehensive_example.indices.lai ≤ 8.0) ∧
    comprehensive_example.carbon_metrics.above_ground_biomass_tons_ha =
      pyRound 1 (comprehensive_example.indices.lai * 25) ∧
    comprehensive_example.carbon_metrics.carbon_stock_tons_c_ha =
      pyRound 1 (comprehensive_example.indices.lai * 25 * 0.47) ∧
    comprehensive_example.carbon_metrics.npp_tons_c_ha_year =
      pyRound 2 (comprehensive_example.indices.gpp_tons_co2_ha_year * 0.45) ∧
    comprehensive_example.carbon_metrics.sequestration_rate_tons_co2_ha_year =
      pyRound 2 (comprehensive_example.indices.gpp_tons_co2_ha_year * 0.45 * 44 / 12) :=
  C9_lai_bounds_and_allometric_equations (fun _ => 0) 0.7 0.6 "tropical"
    comprehensive_example comprehensive_example_eq

theorem C10_quality_score_always_100_witness :
    comprehensive_example.quality_assessment.overall_score = 100 ∧
    comprehensive_example.quality_assessment.quality_level = "high" ∧
    comprehensive_example.quality_assessment.issues_identified = [] :=
  C10_quality_score_always_100 (fun _ => 0) 0.7 0.6 "tropical"
    comprehensive_example comprehensive_example_eq

theorem C5_vegetation_statistics_well_formed_witness :
    statsWellFormed (mock_vegetation_statistics
      (calculate_area_hectares ⟨-74, 4.6, -73.9, 4.7⟩) 0.05 0.02 0.1 0.01) ∧
    statsWellFormed (sentinel2_vegetation_statistics "NDVI"
      (calculate_area_hectares ⟨-74, 4.6, -73.9, 4.7⟩) 0.5 12 0.1 0.01 true) ∧
    statsWellFormed (landsat_vegetation_statistics "NDVI"
      (calculate_area_hectares ⟨-74, 4.6, -73.9, 4.7⟩) 0.5 12 0.1 0.01 true) :=
  C5_vegetation_statistics_well_formed ⟨-74, 4.6, -73.9, 4.7⟩ "NDVI" "NDVI"
    0.05 0.02 0.1 0.01 0.5 12 0.1 0.01 0.5 12 0.1 0.01 true true
    (by norm_num [validate_bounds]) (by norm_num) (by norm_num) (by norm_num)
